import Mathlib

/-!
Shallow embedding of the BigscreenPlatform skill (src/__init__.py).

The skill is a single Python class whose mutable attributes are modelled by
the structure `SkillState`.  Monotonic time (time.monotonic) is passed in
explicitly as an integer parameter `now`; within one handler invocation all
reads of the clock are modelled by the same instant (the lock in the source
serialises each handler).  The scheduler used by `schedule_event` and
`cancel_scheduled_event` is modelled by the list `pending` of scheduled
events held in the state; emitting a bus message is modelled by returning a
list of outbound messages.  A Python exception escaping a handler is
modelled by the `error` field of `HandlerResult`; attribute mutations made
before the raise persist, exactly as they do on the Python object.
-/

namespace Bigscreen

/-- Python runtime values that can appear in the idle override field of a
gui.page.show message: absent (None), a boolean, an integer, or some other
object (modelled by `str`). -/
inductive PyVal where
  | none
  | bool (b : Bool)
  | int (n : Int)
  | str (s : String)
  deriving DecidableEq

/-- Python isinstance(v, int).  Note that Python booleans are instances of
int, so this is true for `bool` values as well. -/
def isinstance_int : PyVal → Bool
  | .int _ => true
  | .bool _ => true
  | _ => false

/-- Python isinstance(v, bool). -/
def isinstance_bool : PyVal → Bool
  | .bool _ => true
  | _ => false

/-- Python `override_idle is True` (identity test against the singleton
True). -/
def is_py_true : PyVal → Bool
  | .bool true => true
  | _ => false

/-- Python `override_idle is not False` (identity test against the
singleton False). -/
def is_not_py_false : PyVal → Bool
  | .bool false => false
  | _ => true

/-- Python `not (override_idle, bool)` from line 106 of the source: the
operand is the two-element tuple `(override_idle, bool)`, which is a
non-empty tuple and hence always truthy, so its negation is always False,
whatever `override_idle` is. -/
def not_of_pair (_v : PyVal) : Bool := false

/-- The guard of the elif branch on line 106 of the source:
`isinstance(override_idle, int) and not (override_idle, bool) and
override_idle is not False`. -/
def line106_guard (v : PyVal) : Bool :=
  isinstance_int v && not_of_pair v && is_not_py_false v

/-- The Python int value carried by an override (only relevant inside the
line-106 branch, where the value is passed as the timer offset). -/
def pyval_int : PyVal → Int
  | .int n => n
  | .bool b => if b then 1 else 0
  | _ => 0

/-- Payload of an inbound bus message.  Fields map to the dictionary keys
read by the handlers: `from_source` is the key __from, `idle` is __idle,
`page` is page and `skill_id` is skill_id; a missing key is `Option.none`. -/
structure MessageData where
  from_source : Option String
  idle : Option PyVal
  page : Option String
  skill_id : Option String
  deriving DecidableEq

/-- One entry of the scheduler: `schedule_event(..., name=...)` with the
data dictionary holding the skill id the timer was armed for. -/
structure ScheduledEvent where
  name : String
  offset : Int
  skill_id : Option String
  deriving DecidableEq

/-- An outbound bus message (`self.bus.emit`). -/
structure OutMessage where
  msg_type : String
  skill_idle_event_id : Option String
  deriving DecidableEq

/-- Python exceptions a handler can raise past its own frame. -/
inductive PyError where
  | keyError
  deriving DecidableEq

/-- The mutable attributes of the BigscreenPlatform object, plus the state
of its scheduler (`pending`). -/
structure SkillState where
  override_idle : Option (MessageData × Int)
  interaction_without_idle : Bool
  interaction_skill_id : Option String
  idle_next : Int
  override_set_time : Int
  has_show_page : Bool
  pending : List ScheduledEvent
  deriving DecidableEq

/-- The state built by __init__ at monotonic time t0. -/
def initState (t0 : Int) : SkillState :=
  { override_idle := Option.none
    interaction_without_idle := true
    interaction_skill_id := Option.none
    idle_next := 0
    override_set_time := t0
    has_show_page := false
    pending := [] }

/-- Result of running one handler: the object state afterwards (mutations
made before a raise persist), the messages emitted, and the exception that
escaped, if any. -/
structure HandlerResult where
  state : SkillState
  emitted : List OutMessage
  error : Option PyError
  deriving DecidableEq

/-- Whether the character list `needle` is an initial segment of `hay`. -/
def startsWithChars : List Char → List Char → Bool
  | _, [] => true
  | [], _ :: _ => false
  | c :: cs, d :: ds => c == d && startsWithChars cs ds

/-- Whether the character list `needle` occurs contiguously in `hay`. -/
def containsChars : List Char → List Char → Bool
  | [], needle => needle == []
  | c :: cs, needle => startsWithChars (c :: cs) needle || containsChars cs needle

/-- Python `needle in hay` for strings (substring containment). -/
def py_in (needle hay : String) : Bool :=
  containsChars hay.toList needle.toList

/-- The identity string this component puts in __from, tested by
`if BigscreenPlatform not in message.data.get(__from, ...)`. -/
def platform_id : String := "BigscreenPlatform"

/-- The scheduler name used for the idle timer. -/
def idle_check : String := "IdleCheck"

/-- The outbound message type emitted by every close path. -/
def screen_close_idle_event : String := "screen.close.idle.event"

/-- `self.cancel_scheduled_event(name)`: drop every pending scheduled
event with that name. -/
def cancel_scheduled_event (name : String) (p : List ScheduledEvent) : List ScheduledEvent :=
  p.filter (fun e => e.name != name)

/-- `self.schedule_event(self.close_current_window, int(offset),
name=IdleCheck, data=...)`: append one scheduled event. -/
def schedule_event (offset : Int) (skid : Option String) (p : List ScheduledEvent) : List ScheduledEvent :=
  p ++ [{ name := idle_check, offset := offset, skill_id := skid }]

/-- `cancel_idle_event` (lines 121-123): zero the deadline and cancel the
IdleCheck scheduled event. -/
def cancel_idle_event (s : SkillState) : SkillState :=
  { s with idle_next := 0, pending := cancel_scheduled_event idle_check s.pending }

/-- `start_idle_event(offset, weak, skid)` (lines 125-149).  Under the
lock: if `time.monotonic() + offset < self.idle_next`, return without any
change (this early return does not consult `weak`).  Otherwise, when not
weak, record the new deadline; then cancel the previous IdleCheck event and
schedule a new one for `offset` seconds carrying `skid`.  The try/except
around scheduling never fires in this pure model, and the half-second sleep
has no observable effect on the modelled state. -/
def start_idle_event (now offset : Int) (weak : Bool) (skid : Option String) (s : SkillState) : SkillState :=
  if now + offset < s.idle_next then s
  else
    { s with
      idle_next := if !weak then now + offset else s.idle_next
      pending := schedule_event offset skid (cancel_scheduled_event idle_check s.pending) }

/-- `override(message)` (lines 74-83): refresh override_set_time and, when
a message is given, remember it together with the current time. -/
def override (now : Int) (msg : Option MessageData) (s : SkillState) : SkillState :=
  let s1 := { s with override_set_time := now }
  match msg with
  | Option.none => s1
  | some m => { s1 with override_idle := some (m, now) }

/-- `close_current_window(message)` (lines 151-154), the action the
scheduler fires: emit the idle-close message only when
interaction_without_idle is false, attributing it to the skill id carried
in the scheduled data. -/
def close_current_window (skid : Option String) (s : SkillState) : SkillState × List OutMessage :=
  if !s.interaction_without_idle then
    (s, [{ msg_type := screen_close_idle_event, skill_idle_event_id := skid }])
  else
    (s, [])

/-- The scheduler invoking the pending IdleCheck action: delegates to
`close_current_window` with the data the timer was armed with. -/
def fire (e : ScheduledEvent) (s : SkillState) : SkillState × List OutMessage :=
  close_current_window e.skill_id s

/-- `close_window_by_event(message)` (lines 156-160): clear
interaction_without_idle, then unconditionally emit the close message
attributed to the last recorded interaction skill id. -/
def close_window_by_event (s : SkillState) : SkillState × List OutMessage :=
  let s1 := { s with interaction_without_idle := false }
  (s1, [{ msg_type := screen_close_idle_event, skill_idle_event_id := s1.interaction_skill_id }])

/-- `close_window_by_force(message)` (lines 162-166): read
`message.data[skill_id]` — a KeyError escapes when the key is missing,
before anything is emitted — then unconditionally emit the close message
attributed to that id. -/
def close_window_by_force (msg : MessageData) (s : SkillState) : HandlerResult :=
  match msg.skill_id with
  | Option.none => { state := s, emitted := [], error := some PyError.keyError }
  | some sid =>
    { state := s
      emitted := [{ msg_type := screen_close_idle_event, skill_idle_event_id := some sid }]
      error := Option.none }

/-- `on_gui_page_show(message)` (lines 93-118).  Ignored when __from
contains BigscreenPlatform; otherwise sets has_show_page, then walks the
if/elif chain: line 101 tests `override_idle is True`; line 106 is the
`line106_guard`; line 113 evaluates `message.data[page]`, raising KeyError
when the key is absent, and treats an empty page string as falsy; inside
that branch line 116 re-tests the override with
`not isinstance(override_idle, bool) or not isinstance(override_idle, int)`. -/
def on_gui_page_show (now : Int) (msg : MessageData) (s : SkillState) : HandlerResult :=
  if !(py_in platform_id (msg.from_source.getD "")) then
    let s1 := { s with has_show_page := true }
    let override_idle := msg.idle.getD PyVal.none
    let skill_id := msg.from_source.getD ""
    if is_py_true override_idle then
      let s2 := { s1 with interaction_without_idle := true }
      let s3 := cancel_idle_event s2
      { state := override now (some msg) s3, emitted := [], error := Option.none }
    else if line106_guard override_idle then
      let s2 := { s1 with interaction_without_idle := true }
      { state := start_idle_event now (pyval_int override_idle) false (some skill_id) s2
        emitted := [], error := Option.none }
    else
      match msg.page with
      | Option.none => { state := s1, emitted := [], error := some PyError.keyError }
      | some p =>
        if p != "" then
          if !(isinstance_bool override_idle) || !(isinstance_int override_idle) then
            let s2 := { s1 with interaction_without_idle := false }
            { state := start_idle_event now 30 false (some skill_id) s2
              emitted := [], error := Option.none }
          else
            { state := s1, emitted := [], error := Option.none }
        else
          { state := s1, emitted := [], error := Option.none }
  else
    { state := s, emitted := [], error := Option.none }

/-- `on_gui_page_interaction(message)` (lines 85-91): record the
interacting skill id; when interaction_without_idle is False re-arm the
idle timer for 30 seconds. -/
def on_gui_page_interaction (now : Int) (msg : MessageData) (s : SkillState) : SkillState :=
  let s1 := { s with interaction_skill_id := msg.skill_id }
  if s1.interaction_without_idle == false then
    start_idle_event now 30 false msg.skill_id s1
  else
    s1

/-- The four handler methods registered on the bus. -/
inductive Handler where
  | close_window_by_event
  | close_window_by_force
  | on_gui_page_show
  | on_gui_page_interaction
  deriving DecidableEq

/-- One registration call made during startup: the GUI-layer
register_handler, the skill helper add_event, or a raw bus.on. -/
inductive RegCall where
  | guiRegister (channel : String) (h : Handler)
  | addEvent (channel : String) (h : Handler)
  | busOn (channel : String) (h : Handler)
  deriving DecidableEq

/-- The handler a registration call attaches. -/
def regHandler : RegCall → Handler
  | .guiRegister _ h => h
  | .addEvent _ h => h
  | .busOn _ h => h

/-- Bus channel mycroft.gui.screen.close. -/
def ch_screen_close : String := "mycroft.gui.screen.close"

/-- Bus channel mycroft.gui.force.screenclose. -/
def ch_force_close : String := "mycroft.gui.force.screenclose"

/-- Bus channel gui.page.show. -/
def ch_page_show : String := "gui.page.show"

/-- Bus channel gui.page_interaction. -/
def ch_page_interaction : String := "gui.page_interaction"

/-- The registration calls issued by the startup hook (lines 49-66), in
order: gui.register_handler, add_event and bus.on for the screen-close
handler; add_event and bus.on for the force-close handler; bus.on for the
page-show and page-interaction handlers. -/
def init_register_calls : List RegCall :=
  [ RegCall.guiRegister ch_screen_close Handler.close_window_by_event
  , RegCall.addEvent ch_screen_close Handler.close_window_by_event
  , RegCall.busOn ch_screen_close Handler.close_window_by_event
  , RegCall.addEvent ch_force_close Handler.close_window_by_force
  , RegCall.busOn ch_force_close Handler.close_window_by_force
  , RegCall.busOn ch_page_show Handler.on_gui_page_show
  , RegCall.busOn ch_page_interaction Handler.on_gui_page_interaction ]

/-- The bus.remove calls issued by the teardown hook (lines 68-72), one per
channel. -/
def shutdown_remove_calls : List (String × Handler) :=
  [ (ch_page_show, Handler.on_gui_page_show)
  , (ch_page_interaction, Handler.on_gui_page_interaction)
  , (ch_screen_close, Handler.close_window_by_event)
  , (ch_force_close, Handler.close_window_by_force) ]

/-- A call into the idle timer: an arm (`start_idle_event`) at some
instant, or a cancel (`cancel_idle_event`). -/
inductive TimerOp where
  | arm (now offset : Int) (weak : Bool) (skid : Option String)
  | cancel

/-- Apply one timer call to the state. -/
def applyTimerOp (s : SkillState) : TimerOp → SkillState
  | .arm now offset weak skid => start_idle_event now offset weak skid s
  | .cancel => cancel_idle_event s

/-- Run a sequence of timer calls. -/
def runTimerOps (s : SkillState) (ops : List TimerOp) : SkillState :=
  ops.foldl applyTimerOp s

/-- A source identity used in concrete tests. -/
def weather_src : String := "weather.skill"

/-- A page name used in concrete tests. -/
def weather_page : String := "WeatherPage"

/-- A second source identity used in concrete tests. -/
def skill_b : String := "skill.b"

/-- A skill id used in concrete force-close tests. -/
def clock_id : String := "clock"

/-- A page-shown message with a numeric override of 15 and a page. -/
def msg_int15 : MessageData :=
  { from_source := some weather_src, idle := some (PyVal.int 15)
    page := some weather_page, skill_id := Option.none }

/-- A page-shown message with no override and no page field. -/
def msg_missing_page : MessageData :=
  { from_source := some weather_src, idle := Option.none
    page := Option.none, skill_id := Option.none }

/-- A page-shown message with no override and an empty page field. -/
def msg_empty_page : MessageData :=
  { from_source := some weather_src, idle := Option.none
    page := some (""), skill_id := Option.none }

/-- A page-shown message with override False and a page. -/
def msg_override_false : MessageData :=
  { from_source := some weather_src, idle := some (PyVal.bool false)
    page := some weather_page, skill_id := Option.none }

/-- A page-shown message with no override and a non-empty page. -/
def msg_no_override : MessageData :=
  { from_source := some weather_src, idle := Option.none
    page := some weather_page, skill_id := Option.none }

/-- A force-close message carrying a skill id. -/
def msg_force_clock : MessageData :=
  { from_source := Option.none, idle := Option.none
    page := Option.none, skill_id := some clock_id }

/-- A force-close message with the skill_id key absent. -/
def msg_force_no_id : MessageData :=
  { from_source := Option.none, idle := Option.none
    page := Option.none, skill_id := Option.none }

/-- A state with an armed timer and deadline 100, used in concrete tests. -/
def armed_state : SkillState :=
  { initState 0 with
      idle_next := 100
      pending := [{ name := idle_check, offset := 100, skill_id := some weather_src }] }

/-- When an override value is not the Python True, the identity test of
line 101 is false. -/
theorem is_py_true_eq_false_of_ne (v : PyVal) (h : v ≠ PyVal.bool true) :
    is_py_true v = false := by
  cases v with
  | none => rfl
  | bool b =>
    cases b with
    | false => rfl
    | true => exact absurd rfl h
  | int n => rfl
  | str t => rfl

/-- When an override value is neither Python True nor Python False it is
not a bool, so isinstance(v, bool) is false. -/
theorem isinstance_bool_eq_false_of_ne (v : PyVal)
    (h1 : v ≠ PyVal.bool true) (h2 : v ≠ PyVal.bool false) :
    isinstance_bool v = false := by
  cases v with
  | none => rfl
  | bool b =>
    cases b with
    | true => exact absurd rfl h1
    | false => exact absurd rfl h2
  | int n => rfl
  | str t => rfl

/-- The guard of the line-106 branch is false for every override value:
the tuple (override_idle, bool) is truthy, so its negation is False. -/
theorem line106_guard_eq_false (v : PyVal) : line106_guard v = false := by
  simp [line106_guard, not_of_pair]

/-- C1 (code bug): the claim says a page-shown event with a positive
integer override n arms the idle timer for n seconds in idle-managed
state.  In the code the numeric branch on line 106 is unreachable — its
guard is false for every override value — so the event with override 15
falls through to the default branch and arms the timer for 30 seconds
instead of 15. -/
theorem C1_numeric_override_dead_branch :
    (∀ v : PyVal, line106_guard v = false) ∧
    (on_gui_page_show 0 msg_int15 (initState 0)).state.pending =
      [{ name := idle_check, offset := 30, skill_id := some weather_src }] ∧
    (on_gui_page_show 0 msg_int15 (initState 0)).state.interaction_without_idle = false ∧
    (30 : Int) ≠ 15 := by
  refine ⟨line106_guard_eq_false, by decide, rfl, by decide⟩

/-- C2 counterexample: an authoritative arm (weak=false) whose candidate
deadline 0 + 50 is below the current deadline 100 is a full no-op: the
deadline stays 100 and nothing is rescheduled, contrary to the claim that
an authoritative call always replaces the deadline. -/
theorem C2_authoritative_shorter_arm_counterexample :
    start_idle_event 0 50 false (some skill_b) armed_state = armed_state ∧
    armed_state.idle_next = 100 ∧ (100 : Int) ≠ 50 := by
  refine ⟨rfl, rfl, by decide⟩

/-- C2 (amended): an arm call with weak=false whose candidate deadline
now + offset is at least the current deadline replaces the deadline with
the candidate, cancels the previously scheduled IdleCheck action and
schedules a new one for offset seconds; when the candidate is strictly
below the current deadline the call is a no-op regardless of weak. -/
theorem C2_amended_authoritative_arm (now offset : Int) (skid : Option String) (s : SkillState) :
    (s.idle_next ≤ now + offset →
      start_idle_event now offset false skid s =
        { s with
            idle_next := now + offset
            pending := schedule_event offset skid (cancel_scheduled_event idle_check s.pending) }) ∧
    (now + offset < s.idle_next → start_idle_event now offset false skid s = s) := by
  constructor
  · intro h
    simp [start_idle_event, not_lt.mpr h]
  · intro h
    simp [start_idle_event, h]

/-- C2 witness: the amended statement at a concrete input. -/
theorem C2_amended_authoritative_arm_witness :
    start_idle_event 0 50 false (some skill_b) (initState 0) =
      { initState 0 with
          idle_next := 50
          pending := schedule_event 50 (some skill_b) (cancel_scheduled_event idle_check (initState 0).pending) } :=
  (C2_amended_authoritative_arm 0 50 (some skill_b) (initState 0)).1 (by decide)

/-- C3: when the scheduled close action fires, the suppression flag
consulted at that instant decides everything: if interaction_without_idle
is true nothing is emitted, and if it is false exactly one
screen.close.idle.event message is emitted, attributed to the skill id
the timer was armed with. -/
theorem C3_suppression_blocks_fire (e : ScheduledEvent) (s : SkillState) :
    fire e s =
      (s, if s.interaction_without_idle then []
          else [{ msg_type := screen_close_idle_event, skill_idle_event_id := e.skill_id }]) := by
  cases h : s.interaction_without_idle <;> simp [fire, close_current_window, h]

/-- C4 counterexample: a page-shown event with no override and the page
key absent makes on_gui_page_show raise KeyError (line 113 indexes
message.data with the page key), contradicting the claim that malformed
events never propagate an exception to the bus dispatcher. -/
theorem C4_missing_page_counterexample :
    (on_gui_page_show 0 msg_missing_page (initState 0)).error = some PyError.keyError ∧
    (on_gui_page_show 0 msg_missing_page (initState 0)).error ≠ Option.none := by
  exact ⟨rfl, by decide⟩

/-- C4 (amended): for a page-shown event not from this component whose
override is not the Python True (the line-106 branch being unreachable),
an empty page field gives a no-op with no timer change and no exception,
while a missing page field gives no timer change and no emission but a
KeyError that propagates out of the handler. -/
theorem C4_amended_malformed_page_show (now : Int) (msg : MessageData) (s : SkillState)
    (hfrom : py_in platform_id (msg.from_source.getD "") = false)
    (hov : is_py_true (msg.idle.getD PyVal.none) = false) :
    (msg.page = some ("") →
      on_gui_page_show now msg s =
        { state := { s with has_show_page := true }, emitted := [], error := Option.none }) ∧
    (msg.page = Option.none →
      on_gui_page_show now msg s =
        { state := { s with has_show_page := true }, emitted := []
          error := some PyError.keyError }) := by
  have he : (("" : String) != ("" : String)) = false := rfl
  constructor
  · intro hp
    simp [on_gui_page_show, hfrom, hov, line106_guard, not_of_pair, hp, he]
  · intro hp
    simp [on_gui_page_show, hfrom, hov, line106_guard, not_of_pair, hp]

/-- C4 witness: the amended statement at a concrete input. -/
theorem C4_amended_malformed_page_show_witness :
    on_gui_page_show 0 msg_empty_page (initState 0) =
      { state := { initState 0 with has_show_page := true }
        emitted := [], error := Option.none } :=
  (C4_amended_malformed_page_show 0 msg_empty_page (initState 0) rfl rfl).1 rfl

/-- C5 counterexample: a page-shown event with override equal to the
Python False and a non-empty page leaves the state untouched apart from
has_show_page — the flag stays true and no timer is armed — because the
inner isinstance test on line 116 is false for booleans, contradicting
the claim that this shape arms a 30-second timer. -/
theorem C5_override_false_counterexample :
    (on_gui_page_show 0 msg_override_false (initState 0)).state.interaction_without_idle = true ∧
    (on_gui_page_show 0 msg_override_false (initState 0)).state.pending = [] ∧
    (on_gui_page_show 0 msg_override_false (initState 0)).state.idle_next = 0 := by
  exact ⟨rfl, rfl, rfl⟩

/-- C5 (amended): for a page-shown event not from this component with a
non-empty page whose override is not a boolean (in particular absent),
on_gui_page_show sets interaction_without_idle to false and calls the
authoritative 30-second arm attributed to the source identity; the
branches are tried in source order and the first match wins, the numeric
branch never matching. -/
theorem C5_amended_default_page_show (now : Int) (msg : MessageData) (s : SkillState) (p : String)
    (hfrom : py_in platform_id (msg.from_source.getD "") = false)
    (hpage : msg.page = some p) (hp : p ≠ "")
    (h1 : msg.idle.getD PyVal.none ≠ PyVal.bool true)
    (h2 : msg.idle.getD PyVal.none ≠ PyVal.bool false) :
    on_gui_page_show now msg s =
      { state := start_idle_event now 30 false (some (msg.from_source.getD ""))
          { s with has_show_page := true, interaction_without_idle := false }
        emitted := [], error := Option.none } := by
  have ht := is_py_true_eq_false_of_ne _ h1
  have hb := isinstance_bool_eq_false_of_ne _ h1 h2
  have hpb : (p != "") = true := by simpa using hp
  simp [on_gui_page_show, hfrom, ht, line106_guard, not_of_pair, hpage, hpb, hb]

/-- C5 witness: the amended statement at a concrete input. -/
theorem C5_amended_default_page_show_witness :
    on_gui_page_show 0 msg_no_override (initState 0) =
      { state := start_idle_event 0 30 false (some (msg_no_override.from_source.getD ""))
          { initState 0 with has_show_page := true, interaction_without_idle := false }
        emitted := [], error := Option.none } :=
  C5_amended_default_page_show 0 msg_no_override (initState 0) weather_page rfl rfl
    (by decide) (by decide) (by decide)

/-- C6: close_window_by_event first clears interaction_without_idle and
then emits exactly one close message attributed to the last recorded
interaction skill id, for every state; close_window_by_force emits
exactly one close message attributed to the skill id carried in the event
payload, for every state, whenever the payload carries one. -/
theorem C6_explicit_and_force_close_bypass :
    (∀ s : SkillState,
      close_window_by_event s =
        ({ s with interaction_without_idle := false },
         [{ msg_type := screen_close_idle_event
            skill_idle_event_id := s.interaction_skill_id }])) ∧
    (∀ (msg : MessageData) (s : SkillState) (sid : String), msg.skill_id = some sid →
      close_window_by_force msg s =
        { state := s
          emitted := [{ msg_type := screen_close_idle_event, skill_idle_event_id := some sid }]
          error := Option.none }) := by
  constructor
  · intro s; rfl
  · intro msg s sid h
    simp [close_window_by_force, h]

/-- C6 witness: the force-close part at a concrete input. -/
theorem C6_explicit_and_force_close_bypass_witness :
    close_window_by_force msg_force_clock (initState 0) =
      { state := initState 0
        emitted := [{ msg_type := screen_close_idle_event, skill_idle_event_id := some clock_id }]
        error := Option.none } :=
  C6_explicit_and_force_close_bypass.2 msg_force_clock (initState 0) clock_id rfl

/-- The invariant carried through timer-call sequences: at most one
pending scheduled action, and every pending action is the IdleCheck one. -/
def pendingOk (s : SkillState) : Prop :=
  s.pending.length ≤ 1 ∧ ∀ e ∈ s.pending, e.name = idle_check

/-- Cancelling the IdleCheck event empties a pending list whose entries
are all IdleCheck entries. -/
theorem cancel_of_all_idle (l : List ScheduledEvent) (h : ∀ e ∈ l, e.name = idle_check) :
    cancel_scheduled_event idle_check l = [] := by
  simp only [cancel_scheduled_event]
  rw [List.filter_eq_nil_iff]
  intro e he
  simp [h e he]

/-- Each timer call preserves the pending invariant. -/
theorem applyTimerOp_pendingOk (s : SkillState) (op : TimerOp) (h : pendingOk s) :
    pendingOk (applyTimerOp s op) := by
  cases op with
  | cancel =>
    constructor
    · simp [applyTimerOp, cancel_idle_event, cancel_of_all_idle s.pending h.2]
    · intro e he
      simp [applyTimerOp, cancel_idle_event, cancel_of_all_idle s.pending h.2] at he
  | arm now offset weak skid =>
    by_cases hc : now + offset < s.idle_next
    · constructor
      · simpa [applyTimerOp, start_idle_event, hc] using h.1
      · intro e he
        simp [applyTimerOp, start_idle_event, hc] at he
        exact h.2 e he
    · constructor
      · simp [applyTimerOp, start_idle_event, hc, schedule_event,
              cancel_of_all_idle s.pending h.2]
      · intro e he
        simp [applyTimerOp, start_idle_event, hc, schedule_event,
              cancel_of_all_idle s.pending h.2] at he
        simp [he]

/-- C7: starting from the initial state, after any sequence of arm and
cancel calls at most one scheduled close action is pending: arming cancels
the previously scheduled IdleCheck action before scheduling the new one,
and cancel leaves none. -/
theorem C7_at_most_one_scheduled (t0 : Int) (ops : List TimerOp) :
    (runTimerOps (initState t0) ops).pending.length ≤ 1 := by
  have key : ∀ (l : List TimerOp) (s : SkillState), pendingOk s → pendingOk (runTimerOps s l) := by
    intro l
    induction l with
    | nil => intro s hs; exact hs
    | cons op tl ih =>
      intro s hs
      exact ih (applyTimerOp s op) (applyTimerOp_pendingOk s op hs)
  have h0 : pendingOk (initState t0) := by
    constructor
    · simp [initState]
    · intro e he
      simp [initState] at he
  exact (key ops (initState t0) h0).1

/-- C8: a weak arm whose candidate deadline is strictly below the current
deadline is a no-op, and a weak arm whose candidate is at least the
current deadline cancels the previous IdleCheck action and reschedules
while leaving the recorded deadline unchanged. -/
theorem C8_weak_arm_monotonic (now offset : Int) (skid : Option String) (s : SkillState) :
    (now + offset < s.idle_next → start_idle_event now offset true skid s = s) ∧
    (s.idle_next ≤ now + offset →
      start_idle_event now offset true skid s =
        { s with pending := schedule_event offset skid (cancel_scheduled_event idle_check s.pending) }) := by
  constructor
  · intro h
    simp [start_idle_event, h]
  · intro h
    simp [start_idle_event, not_lt.mpr h]

/-- C8 witness: the rescheduling part at a concrete input. -/
theorem C8_weak_arm_monotonic_witness :
    start_idle_event 0 40 true (some skill_b) (initState 0) =
      { initState 0 with pending := schedule_event 40 (some skill_b) (cancel_scheduled_event idle_check (initState 0).pending) } :=
  (C8_weak_arm_monotonic 0 40 (some skill_b) (initState 0)).2 (by decide)

/-- C9 counterexample: the startup hook registers the screen-close handler
with three separate registration calls (gui.register_handler, add_event
and bus.on), not exactly once as the claim states. -/
theorem C9_registration_count_counterexample :
    (init_register_calls.filter
      (fun c => regHandler c == Handler.close_window_by_event)).length = 3 ∧
    (init_register_calls.filter
      (fun c => regHandler c == Handler.close_window_by_event)).length ≠ 1 := by
  exact ⟨rfl, by decide⟩

/-- C9 (amended): the startup hook issues three registration calls for the
screen-close handler and two for the force-close handler, and one each
for the page-show and page-interaction handlers, while the teardown hook
issues exactly one bus.remove per channel; registration and
deregistration are therefore not pairwise symmetric for the two close
handlers. -/
theorem C9_amended_lifecycle_calls :
    (init_register_calls.filter
      (fun c => regHandler c == Handler.close_window_by_event)).length = 3 ∧
    (init_register_calls.filter
      (fun c => regHandler c == Handler.close_window_by_force)).length = 2 ∧
    (init_register_calls.filter
      (fun c => regHandler c == Handler.on_gui_page_show)).length = 1 ∧
    (init_register_calls.filter
      (fun c => regHandler c == Handler.on_gui_page_interaction)).length = 1 ∧
    (shutdown_remove_calls.filter
      (fun c => c.2 == Handler.close_window_by_event)).length = 1 ∧
    (shutdown_remove_calls.filter
      (fun c => c.2 == Handler.close_window_by_force)).length = 1 ∧
    (shutdown_remove_calls.filter
      (fun c => c.2 == Handler.on_gui_page_show)).length = 1 ∧
    (shutdown_remove_calls.filter
      (fun c => c.2 == Handler.on_gui_page_interaction)).length = 1 := by
  exact ⟨rfl, rfl, rfl, rfl, rfl, rfl, rfl, rfl⟩

/-- C10: a force-close message whose payload lacks the skill_id key makes
close_window_by_force raise KeyError before emitting anything: no close
message is emitted and the error escapes the handler. -/
theorem C10_force_close_missing_skill_id (msg : MessageData) (s : SkillState)
    (h : msg.skill_id = Option.none) :
    close_window_by_force msg s =
      { state := s, emitted := [], error := some PyError.keyError } := by
  simp [close_window_by_force, h]

/-- C10 witness: the statement at a concrete input. -/
theorem C10_force_close_missing_skill_id_witness :
    close_window_by_force msg_force_no_id (initState 0) =
      { state := initState 0, emitted := [], error := some PyError.keyError } :=
  C10_force_close_missing_skill_id msg_force_no_id (initState 0) rfl

end Bigscreen
